import Mathlib

/-!
Shallow embedding of the request-handling pipeline of the `web` static-file
server (`src/main.rs`).

The embedded parts are:
  * the dotfile detection and response filter installed with `wrap_fn`
    (main.rs, the first middleware registered on the `App`);
  * the header shaping (`Cache-Control: no-store`, `Access-Control-Allow-Origin`)
    performed inside the same filter;
  * the Basic-auth layer (`middleware::Condition` + `HttpAuthentication::basic`
    with `validator`), which is registered after the filter and therefore runs
    before it on the request path, short-circuiting with 401;
  * the `actix_files::Files` service: segment parsing (`PathBufWrap::parse_path`
    with `use_hidden_files`, which drops `..` segments by popping), filesystem
    lookup, `render_index` (the `files_listing_renderer`) and the SPA/404
    `default_handler`;
  * `get_file_type` and the `Dir`/`File` rows with their derived `Ord`
    (lexicographic in field order) and `Vec::sort`.

External collaborators (the `sha2` hash, `tera` serialization and template
rendering, `mime_guess`) are modelled as function-valued parameters collected
in `Collab`; the pipeline theorems quantify over them.

Machine integers that appear (file sizes, `u64`) are modelled as `Nat`; no
arithmetic in the embedded code can overflow a `u64` observably for the claims
at hand (sizes are only compared).  Rust `String` ordering is byte-wise
lexicographic over UTF-8, which coincides with the codepoint-lexicographic
order of Lean's `String`; we use the latter.
-/

namespace Web

/-- Value of a hexadecimal digit, `none` if not a hex digit. -/
def hexDigit (c : Char) : Option Nat :=
  if '0' ≤ c ∧ c ≤ '9' then some (c.toNat - '0'.toNat)
  else if 'a' ≤ c ∧ c ≤ 'f' then some (c.toNat - 'a'.toNat + 10)
  else if 'A' ≤ c ∧ c ≤ 'F' then some (c.toNat - 'A'.toNat + 10)
  else none

/-- Percent-decoding over a character list: `%xy` with two hex digits becomes
the decoded character, anything else is copied.  Models the decoding actix's
router applies to a URI path before `actix_files` sees it, and
`urlencoding::decode` used for the breadcrumbs (whose invalid-UTF-8 failure
mode cannot arise over `String`s, so the `[Parse URL Error]` branch of the
source is unreachable in the model). -/
def percentDecodeList : List Char → List Char
  | [] => []
  | '%' :: a :: b :: rest =>
    match hexDigit a, hexDigit b with
    | some x, some y => Char.ofNat (16 * x + y) :: percentDecodeList rest
    | _, _ => '%' :: percentDecodeList (a :: b :: rest)
  | c :: rest => c :: percentDecodeList rest

def percentDecode (s : String) : String :=
  (percentDecodeList s.toList).asString

/-- Split a character list on a delimiter, keeping empty pieces,
like Rust's `str::split`. -/
def splitCharAux (delim : Char) : List Char → List Char → List String
  | [], cur => [cur.reverse.asString]
  | c :: rest, cur =>
    if c = delim then cur.reverse.asString :: splitCharAux delim rest []
    else splitCharAux delim rest (c :: cur)

def splitChar (delim : Char) (s : String) : List String :=
  splitCharAux delim s.toList []

/-- `str::split('/')` of a request path. -/
def splitSlash (s : String) : List String :=
  splitChar '/' s

/-- `str::starts_with('.')`. -/
def startsWithDot (s : String) : Bool :=
  match s.toList with
  | '.' :: _ => true
  | _ => false

/-- The components `PathBuf::from_str(req.path()).iter()` yields for an
absolute URL path: empty segments and lone `.` segments are elided by the
`Components` normalization (the leading root component `/` never starts
with `.` and is dropped here as well); `..` segments are kept. -/
def pathComponents (raw : String) : List String :=
  (splitSlash raw).filter (fun s => !(s == "") && !(s == "."))

/-- The dotfile detection of the `wrap_fn` filter in `main`: it walks the
components of the *raw, still percent-encoded* `req.path()` and flags the
request when any component starts with `'.'`. -/
def isdotfile (raw : String) : Bool :=
  (pathComponents raw).any startsWithDot

/-- Last character of a string, if any. -/
def lastChar (s : String) : Option Char :=
  s.toList.getLast?

/-- `segment.starts_with('*')`. -/
def badStartSeg (seg : String) : Bool :=
  match seg.toList with
  | '*' :: _ => true
  | _ => false

/-- `segment.ends_with(':') || segment.ends_with('>') || segment.ends_with('<')`. -/
def badEndSeg (seg : String) : Bool :=
  match lastChar seg with
  | some ':' => true
  | some '>' => true
  | some '<' => true
  | _ => false

/-- `actix_files` `PathBufWrap::parse_path` with `hidden_files = true`
(the service is built with `.use_hidden_files()`): `..` pops the last
accepted segment (a no-op at the root, so traversal can never escape),
segments starting with `*` or ending with `:`, `>` or `<` are rejected
(the service answers 404 with the error's display text), empty segments
are skipped, everything else — including dotfile segments — is kept. -/
def parseSegmentsAux : List String → List String → Option (List String)
  | [], acc => some acc
  | seg :: rest, acc =>
    if seg == ".." then parseSegmentsAux rest acc.dropLast
    else if badStartSeg seg then none
    else if badEndSeg seg then none
    else if seg == "" then parseSegmentsAux rest acc
    else parseSegmentsAux rest (acc ++ [seg])

def parseSegments (segs : List String) : Option (List String) :=
  parseSegmentsAux segs []

/-- A filesystem tree: regular files carry their content, byte size
(`metadata.len()`) and formatted modification time; directories carry their
children (in enumeration order) and a modification time. -/
inductive FsNode where
  | file (content : String) (size : Nat) (modified : String)
  | dir (entries : List (String × FsNode)) (modified : String)

/-- Look up a directory child by name (directory entry names are unique). -/
def findChild : List (String × FsNode) → String → Option FsNode
  | [], _ => none
  | (n, c) :: rest, s => if n == s then some c else findChild rest s

/-- Resolve a segment list against a node, with the OS semantics the joined
`PathBuf` gets:  `.` stays in the current directory (it can be pushed by
`parse_path` since it passes all its checks), descending below a regular
file fails. -/
def FsNode.lookup : FsNode → List String → Option FsNode
  | n, [] => some n
  | FsNode.file _ _ _, _ :: _ => none
  | FsNode.dir es m, seg :: rest =>
    if seg == "." then FsNode.lookup (FsNode.dir es m) rest
    else
      match findChild es seg with
      | some c => FsNode.lookup c rest
      | none => none

/-- Listing row for a subdirectory (source `struct Dir`, derived
`Ord` compares `(name, modified)` lexicographically). -/
structure Dir where
  name : String
  modified : String
  deriving DecidableEq

/-- Listing row for a file (source `struct File`, derived `Ord` compares
`(name, size, filetype, modified)` lexicographically). -/
structure File where
  name : String
  size : Nat
  filetype : String
  modified : String
  deriving DecidableEq

/-- The context handed to the template (source `struct IndexContext`). -/
structure IndexContext where
  title : String
  paths : List String
  dirs : List Dir
  files : List File

/-- External collaborators of the pipeline, modelled as opaque total
functions: the `sha2::Sha512` digest (deterministic and salt-free — a plain
function of the input string), `tera::Context::from_serialize`,
`TEMPLATE.render("index", ·)`, and `mime_guess` (its guessed top-level type,
and the full content type `NamedFile` derives — with `prefer_utf8`). -/
structure Collab where
  hashString : String → String
  serializeCtx : IndexContext → Except String Unit
  renderTemplate : IndexContext → Except String String
  mimeTopType : String → String
  guessMime : String → String

/-- Rust `Path::extension()` of a file name: the part after the last `.`,
`none` when there is no `.` or when the name is purely a leading-dot name
such as `.gitignore`. -/
def extensionOf (name : String) : Option String :=
  match splitChar '.' name with
  | [] => none
  | [_] => none
  | p :: rest => if p == "" && rest.length == 1 then none else rest.getLast?

/-- The literal extension table of `get_file_type` in the source. -/
def extCategory : String → Option String
  | "7z" => some "archive"
  | "bz" => some "archive"
  | "bz2" => some "archive"
  | "cab" => some "archive"
  | "gz" => some "archive"
  | "iso" => some "archive"
  | "rar" => some "archive"
  | "xz" => some "archive"
  | "zip" => some "archive"
  | "zst" => some "archive"
  | "zstd" => some "archive"
  | "doc" => some "word"
  | "docx" => some "word"
  | "ppt" => some "powerpoint"
  | "pptx" => some "powerpoint"
  | "xls" => some "excel"
  | "xlsx" => some "excel"
  | "heic" => some "image"
  | "pdf" => some "pdf"
  | "js" => some "code"
  | "cjs" => some "code"
  | "mjs" => some "code"
  | "jsx" => some "code"
  | "ts" => some "code"
  | "tsx" => some "code"
  | "json" => some "code"
  | "coffee" => some "code"
  | "html" => some "code"
  | "htm" => some "code"
  | "xml" => some "code"
  | "xhtml" => some "code"
  | "vue" => some "code"
  | "ejs" => some "code"
  | "template" => some "code"
  | "tmpl" => some "code"
  | "pug" => some "code"
  | "art" => some "code"
  | "hbs" => some "code"
  | "tera" => some "code"
  | "css" => some "code"
  | "scss" => some "code"
  | "sass" => some "code"
  | "less" => some "code"
  | "py" => some "code"
  | "pyc" => some "code"
  | "java" => some "code"
  | "kt" => some "code"
  | "kts" => some "code"
  | "gradle" => some "code"
  | "groovy" => some "code"
  | "scala" => some "code"
  | "jsp" => some "code"
  | "sh" => some "code"
  | "php" => some "code"
  | "c" => some "code"
  | "cc" => some "code"
  | "cpp" => some "code"
  | "h" => some "code"
  | "cmake" => some "code"
  | "cs" => some "code"
  | "xaml" => some "code"
  | "sln" => some "code"
  | "csproj" => some "code"
  | "go" => some "code"
  | "mod" => some "code"
  | "sum" => some "code"
  | "swift" => some "code"
  | "plist" => some "code"
  | "xib" => some "code"
  | "xcconfig" => some "code"
  | "entitlements" => some "code"
  | "xcworkspacedata" => some "code"
  | "pbxproj" => some "code"
  | "rb" => some "code"
  | "rs" => some "code"
  | "m" => some "code"
  | "dart" => some "code"
  | "manifest" => some "code"
  | "rc" => some "code"
  | "cmd" => some "code"
  | "bat" => some "code"
  | "ps1" => some "code"
  | "ini" => some "code"
  | "yaml" => some "code"
  | "toml" => some "code"
  | "conf" => some "code"
  | "properties" => some "code"
  | "lock" => some "alt"
  | _ => none

/-- Source `get_file_type`: extension table first, then the top-level type of
the mime guess (`audio`/`image`/`pdf`/`video`/`text` → category, anything
else → `"file"`), and `"file"` when the path has no extension. -/
def get_file_type (collab : Collab) (name : String) : String :=
  match extensionOf name with
  | none => "file"
  | some ext =>
    match extCategory ext with
    | some c => c
    | none =>
      let t := collab.mimeTopType name
      if t == "audio" then "audio"
      else if t == "image" then "image"
      else if t == "pdf" then "pdf"
      else if t == "video" then "video"
      else if t == "text" then "alt"
      else "file"

/-- An HTTP response as far as the claims observe it. -/
structure Response where
  status : Nat
  headers : List (String × String)
  body : String
  deriving DecidableEq

/-- `HeaderMap::insert`: replaces the value of an existing header, otherwise
appends the pair. -/
def insertHeader (k v : String) (hs : List (String × String)) :
    List (String × String) :=
  if hs.any (fun p => p.1 == k) then
    hs.map (fun p => if p.1 == k then (k, v) else p)
  else hs ++ [(k, v)]

/-- The `--auth user:password` configuration: `AUTH_USERNAME` and
`AUTH_PASSWORD` (the latter stores `hash(password)` as set in `main`). -/
structure AuthConfig where
  username : String
  passwordHash : String
  deriving DecidableEq

/-- The resolved server configuration (the environment variables `main` sets
from the CLI flags, immutable afterwards).  `corsValue = none` models the
`CORS` variable being unset (the filter then falls back to `"*"`). -/
structure Config where
  noindex : Bool
  dotfiles : Bool
  spa : Bool
  nocache : Bool
  enableCors : Bool
  corsValue : Option String
  auth : Option AuthConfig

/-- The derived `Ord` of the source `Dir` struct: lexicographic on
`(name, modified)`. -/
def dirLe (a b : Dir) : Prop :=
  a.name < b.name ∨ (a.name = b.name ∧ a.modified ≤ b.modified)

/-- The derived `Ord` of the source `File` struct: lexicographic on
`(name, size, filetype, modified)` — field declaration order. -/
def fileLe (a b : File) : Prop :=
  a.name < b.name ∨
    (a.name = b.name ∧
      (a.size < b.size ∨
        (a.size = b.size ∧
          (a.filetype < b.filetype ∨
            (a.filetype = b.filetype ∧ a.modified ≤ b.modified)))))

/-- The `(name, modifiedAt)`-lexicographic order the spec's listing
invariant speaks about. -/
def nameModifiedLe (a b : File) : Prop :=
  a.name < b.name ∨ (a.name = b.name ∧ a.modified ≤ b.modified)

instance : DecidableRel dirLe := fun a b => by
  unfold dirLe; infer_instance

instance : DecidableRel fileLe := fun a b => by
  unfold fileLe; infer_instance

instance : IsTotal Dir dirLe := by
  constructor
  intro a b
  rcases lt_trichotomy a.name b.name with h | h | h
  · exact Or.inl (Or.inl h)
  · rcases le_total a.modified b.modified with h2 | h2
    · exact Or.inl (Or.inr ⟨h, h2⟩)
    · exact Or.inr (Or.inr ⟨h.symm, h2⟩)
  · exact Or.inr (Or.inl h)

instance : IsTrans Dir dirLe := by
  constructor
  intro a b c hab hbc
  rcases hab with h1 | ⟨e1, m1⟩
  · rcases hbc with h2 | ⟨e2, _⟩
    · exact Or.inl (h1.trans h2)
    · exact Or.inl (e2 ▸ h1)
  · rcases hbc with h2 | ⟨e2, m2⟩
    · exact Or.inl (e1 ▸ h2)
    · exact Or.inr ⟨e1.trans e2, m1.trans m2⟩

instance : IsTotal File fileLe := by
  constructor
  intro a b
  rcases lt_trichotomy a.name b.name with h | h | h
  · exact Or.inl (Or.inl h)
  · rcases lt_trichotomy a.size b.size with hs | hs | hs
    · exact Or.inl (Or.inr ⟨h, Or.inl hs⟩)
    · rcases lt_trichotomy a.filetype b.filetype with ht | ht | ht
      · exact Or.inl (Or.inr ⟨h, Or.inr ⟨hs, Or.inl ht⟩⟩)
      · rcases le_total a.modified b.modified with hm | hm
        · exact Or.inl (Or.inr ⟨h, Or.inr ⟨hs, Or.inr ⟨ht, hm⟩⟩⟩)
        · exact Or.inr (Or.inr ⟨h.symm, Or.inr ⟨hs.symm, Or.inr ⟨ht.symm, hm⟩⟩⟩)
      · exact Or.inr (Or.inr ⟨h.symm, Or.inr ⟨hs.symm, Or.inl ht⟩⟩)
    · exact Or.inr (Or.inr ⟨h.symm, Or.inl hs⟩)
  · exact Or.inr (Or.inl h)

instance : IsTrans File fileLe := by
  constructor
  intro a b c hab hbc
  rcases hab with h1 | ⟨e1, hab⟩
  · rcases hbc with h2 | ⟨e2, _⟩
    · exact Or.inl (h1.trans h2)
    · exact Or.inl (e2 ▸ h1)
  · rcases hbc with h2 | ⟨e2, hbc⟩
    · exact Or.inl (e1 ▸ h2)
    · refine Or.inr ⟨e1.trans e2, ?_⟩
      rcases hab with s1 | ⟨es1, hab⟩
      · rcases hbc with s2 | ⟨es2, _⟩
        · exact Or.inl (s1.trans s2)
        · exact Or.inl (es2 ▸ s1)
      · rcases hbc with s2 | ⟨es2, hbc⟩
        · exact Or.inl (es1 ▸ s2)
        · refine Or.inr ⟨es1.trans es2, ?_⟩
          rcases hab with t1 | ⟨et1, hab⟩
          · rcases hbc with t2 | ⟨et2, _⟩
            · exact Or.inl (t1.trans t2)
            · exact Or.inl (et2 ▸ t1)
          · rcases hbc with t2 | ⟨et2, hbc⟩
            · exact Or.inl (et1 ▸ t2)
            · exact Or.inr ⟨et1.trans et2, hab.trans hbc⟩

/-- The `read_dir` loop of `render_index`: walk the entries in enumeration
order, skip dotfile entries unless `DOTFILES` is set, classify directory
entries into `Dir` rows and file entries into `File` rows (with
`get_file_type`).  The per-entry I/O error branches of the source
(`file_name`, `metadata`, `modified` failures) skip the entry and are not
reachable in the model, whose entries always carry valid metadata. -/
def collectRows (showDot : Bool) (collab : Collab) :
    List (String × FsNode) → List Dir × List File
  | [] => ([], [])
  | (name, node) :: rest =>
    let acc := collectRows showDot collab rest
    if !showDot && startsWithDot name then acc
    else
      match node with
      | FsNode.dir _ m => (⟨name, m⟩ :: acc.1, acc.2)
      | FsNode.file _ sz m =>
        (acc.1, ⟨name, sz, get_file_type collab name, m⟩ :: acc.2)

/-- The breadcrumb loop of `render_index`: split the raw request path on
`/`, skip empty segments, percent-decode each one. -/
def breadcrumbs (raw : String) : List String :=
  ((splitSlash raw).filter (fun s => !(s == ""))).map percentDecode

/-- Build the `IndexContext` exactly as `render_index` does: breadcrumbs,
title (last breadcrumb or `/`), and the two row vectors sorted with the
derived `Ord` by `Vec::sort` (a stable sort; `List.insertionSort` is also
stable, inserting later-enumerated equal elements after earlier ones). -/
def buildContext (showDot : Bool) (collab : Collab) (raw : String)
    (entries : List (String × FsNode)) : IndexContext :=
  let paths := breadcrumbs raw
  let rows := collectRows showDot collab entries
  { title := paths.getLast?.getD "/"
    paths := paths
    dirs := List.insertionSort dirLe rows.1
    files := List.insertionSort fileLe rows.2 }

/-- Source `render_index` (the `files_listing_renderer`): serve
`index.html` from inside the directory when it exists as a regular file
(status 200, `text/html; charset=utf-8`, before anything else is looked
at); honour `NOINDEX` with an empty 404; otherwise build the context and
render it — a `tera::Context::from_serialize` failure is returned as an
`Err` (which actix turns into a 500 response), a template rendering failure
degrades to the literal `TEMPLATE RENDER ERROR` body with status 200. -/
def render_index (cfg : Config) (collab : Collab)
    (entries : List (String × FsNode)) (raw : String) :
    Except String Response :=
  match findChild entries "index.html" with
  | some (FsNode.file c _ _) =>
    Except.ok ⟨200, [("content-type", "text/html; charset=utf-8")], c⟩
  | _ =>
    if cfg.noindex then Except.ok ⟨404, [], ""⟩
    else
      let ctx := buildContext cfg.dotfiles collab raw entries
      match collab.serializeCtx ctx with
      | Except.error e => Except.error e
      | Except.ok _ =>
        let body :=
          match collab.renderTemplate ctx with
          | Except.ok s => s
          | Except.error _ => "TEMPLATE RENDER ERROR"
        Except.ok ⟨200, [("content-type", "text/html; charset=utf-8")], body⟩

/-- The `default_handler` of the `Files` service: serve `ROOT/index.html`
when it exists, is a regular file and `SPA` is enabled; otherwise an empty
404. -/
def defaultHandler (cfg : Config) (collab : Collab)
    (rootEntries : List (String × FsNode)) : Except String Response :=
  match findChild rootEntries "index.html" with
  | some (FsNode.file c _ _) =>
    if cfg.spa then
      Except.ok ⟨200, [("content-type", collab.guessMime "index.html")], c⟩
    else Except.ok ⟨404, [], ""⟩
  | _ => Except.ok ⟨404, [], ""⟩

/-- The `Files` service mounted at `/`: the router hands it the
percent-decoded path, `parse_path` (hidden files allowed) normalizes the
segments (404 with the `UriSegmentError` display text on a rejected
segment), the result is joined onto `ROOT` and dispatched: directories go
to `render_index`, regular files are served with their guessed content
type, anything else goes to the `default_handler`. -/
def filesService (cfg : Config) (collab : Collab)
    (rootEntries : List (String × FsNode)) (raw : String) :
    Except String Response :=
  let segs := (splitSlash raw).map percentDecode
  match parseSegments segs with
  | none => Except.ok ⟨404, [], "uri segment error"⟩
  | some segsOk =>
    match (FsNode.dir rootEntries "").lookup segsOk with
    | some (FsNode.dir es _) => render_index cfg collab es raw
    | some (FsNode.file c _ _) =>
      Except.ok ⟨200, [("content-type", collab.guessMime (segsOk.getLast?.getD ""))], c⟩
    | none => defaultHandler cfg collab rootEntries

/-- The response the inner service stack produces: an `Err` bubbling out of
the `Files` service is converted by actix into a 500 response carrying the
error's display text. -/
def innerResponse (collab : Collab) (cfg : Config)
    (rootEntries : List (String × FsNode)) (raw : String) : Response :=
  match filesService cfg collab rootEntries raw with
  | Except.ok r => r
  | Except.error e => ⟨500, [], e⟩

/-- The `wrap_fn` response filter of `main`, i.e. the
`fut.await?.map_body(|head, body| ...)` closure: it first mutates the
header map in place (`Cache-Control: no-store` when `NOCACHE`,
`Access-Control-Allow-Origin` from the `CORS` variable — default `*` —
when `ENABLE_CORS`), then decides the body.  `map_body` can only replace
the *body*: in the dotfile branch the closure returns
`Response::new(StatusCode::FORBIDDEN).into_body()`, and `into_body()`
yields just the (empty) body of that fresh 403 response, so the status and
headers of the already-computed inner response survive unchanged.
`shapeHeaders` is the header-mutating first half of that closure. -/
def shapeHeaders (cfg : Config) (hs : List (String × String)) :
    List (String × String) :=
  let hs1 := if cfg.nocache then insertHeader "cache-control" "no-store" hs else hs
  if cfg.enableCors then
    insertHeader "access-control-allow-origin" (cfg.corsValue.getD "*") hs1
  else hs1

/-- The whole `map_body` closure: header shaping followed by the dotfile
body gate (see `shapeHeaders` for why only the body can change). -/
def wrapFilter (cfg : Config) (raw : String) (r : Response) : Response :=
  ⟨r.status, shapeHeaders cfg r.headers,
   if isdotfile raw && !cfg.dotfiles then "" else r.body⟩

/-- Source `validator`: the supplied user id must equal `AUTH_USERNAME`
byte-for-byte, and the hash of the supplied password — the empty string
when the Basic header carried no password — must equal the stored
`AUTH_PASSWORD` hash. -/
def validator (collab : Collab) (a : AuthConfig) (userId : String)
    (password : Option String) : Bool :=
  userId == a.username && collab.hashString (password.getD "") == a.passwordHash

/-- The `WWW-Authenticate` challenge value of `actix_web_httpauth`'s
`Basic` challenge: bare `Basic` without a realm, or with the quoted realm. -/
def basicChallenge : Option String → String
  | none => "Basic"
  | some realm => "Basic realm=\"" ++ realm ++ "\""

/-- A 401 response carrying a Basic challenge and an empty body. -/
def challengeResponse (realm : Option String) : Response :=
  ⟨401, [("www-authenticate", basicChallenge realm)], ""⟩

/-- The authentication layer (`middleware::Condition` around
`HttpAuthentication::basic(validator)`), which is registered after the
`wrap_fn` filter and therefore runs before it on the request path.  `none`
means the request is passed on to the inner service.  When the middleware
is active: a request without a parseable Basic `Authorization` header fails
at extraction and is answered with the *default* challenge (no realm);
`validator` rejecting yields the challenge with the fixed realm
`Incorrect username or password`.  Either denial short-circuits: the inner
service (and hence any file access and the `wrap_fn` filter) never runs. -/
def authLayer (collab : Collab) (auth : Option AuthConfig)
    (creds : Option (String × Option String)) : Option Response :=
  match auth with
  | none => none
  | some a =>
    match creds with
    | none => some (challengeResponse none)
    | some (u, pw) =>
      if validator collab a u pw then none
      else some (challengeResponse (some "Incorrect username or password"))

/-- An incoming request: its raw (still percent-encoded) path and the Basic
credentials it carries, if any (`(user, password?)`). -/
structure Request where
  path : String
  credentials : Option (String × Option String)

/-- The full per-request pipeline in middleware order: auth layer first
(short-circuiting with 401), then the inner `Files` service, then the
`wrap_fn` response filter (header shaping and dotfile body gate).  The
`Logger` and `Compress` middlewares do not alter status, headers or
(observable) body and are omitted. -/
def pipeline (collab : Collab) (cfg : Config)
    (rootEntries : List (String × FsNode)) (req : Request) : Response :=
  match authLayer collab cfg.auth req.credentials with
  | some resp => resp
  | none => wrapFilter cfg req.path (innerResponse collab cfg rootEntries req.path)

/-- Spec-side definition (for comparison with `isdotfile`): the spec says
the dotfile determination is made over the *percent-decoded* segments of
the request path. -/
def specIsDotfile (raw : String) : Bool :=
  (splitSlash raw).any (fun seg => startsWithDot (percentDecode seg))

/-- Spec-side definition: a path "contains a `..` segment that would escape
the root" when, reading the decoded segments left to right (ignoring empty
and `.` segments), some `..` occurs at depth zero. -/
def specWouldEscapeAux : List String → Nat → Bool
  | [], _ => false
  | seg :: rest, d =>
    if seg == ".." then
      match d with
      | 0 => true
      | Nat.succ d2 => specWouldEscapeAux rest d2
    else if seg == "" || seg == "." then specWouldEscapeAux rest d
    else specWouldEscapeAux rest (d + 1)

def specWouldEscape (raw : String) : Bool :=
  specWouldEscapeAux ((splitSlash raw).map percentDecode) 0

/-- Modelled from the spec: the listing template
(`templates/index.html.tera`, compiled in with `include_str!` and not part
of `src/`) renders the directory rows as one group before the file rows
group. -/
def renderedRows (ctx : IndexContext) : List (Dir ⊕ File) :=
  ctx.dirs.map Sum.inl ++ ctx.files.map Sum.inr

/-! ### Concrete fixtures used by counterexamples and witnesses -/

/-- A concrete instantiation of the external collaborators: the identity as
hash, always-successful serialization and rendering, `text` as guessed
top-level type, octet-stream as guessed content type. -/
def collab0 : Collab :=
  ⟨fun s => s, fun _ => Except.ok (), fun _ => Except.ok "PAGE",
   fun _ => "text", fun _ => "application/octet-stream"⟩

/-- Collaborators whose context serialization fails. -/
def collabSerFail : Collab :=
  ⟨fun s => s, fun _ => Except.error "ser failed", fun _ => Except.ok "PAGE",
   fun _ => "text", fun _ => "application/octet-stream"⟩

/-- The default configuration: no flag given on the command line. -/
def cfg1 : Config := ⟨false, false, false, false, false, none, none⟩

/-- Default configuration plus `--dotfiles`. -/
def cfg2 : Config := ⟨false, true, false, false, false, none, none⟩

/-- Default configuration plus `--auth admin:...` where the stored hash is
the string `HASHED` (under `collab0`'s identity hash, the password
`HASHED` authenticates). -/
def cfgAuth : Config :=
  ⟨false, false, false, false, false, none, some ⟨"admin", "HASHED"⟩⟩

/-- `cfgAuth` plus `--nocache`. -/
def cfgAuthNc : Config :=
  ⟨false, false, false, true, false, none, some ⟨"admin", "HASHED"⟩⟩

/-- Default configuration plus `--nocache --cors https://example.com`. -/
def cfgNcCors : Config :=
  ⟨false, false, false, true, true, some "https://example.com", none⟩

/-- Default configuration plus `--spa`. -/
def cfgSpa : Config := ⟨false, false, true, false, false, none, none⟩

/-- A root containing a single dotfile. -/
def root1 : List (String × FsNode) :=
  [(".secret", FsNode.file "TOP SECRET" 10 "2020/01/01 00:00:00")]

/-- A root containing a single regular file. -/
def root2 : List (String × FsNode) :=
  [("a.txt", FsNode.file "A" 1 "t")]

/-- A root containing a subdirectory without an `index.html`. -/
def root3 : List (String × FsNode) :=
  [("d", FsNode.dir [("x.txt", FsNode.file "X" 1 "t")] "t")]

/-- A root containing a subdirectory with an `index.html`. -/
def root8 : List (String × FsNode) :=
  [("docs", FsNode.dir
      [("index.html", FsNode.file "<html>index</html>" 18 "t"),
       ("other.txt", FsNode.file "x" 1 "t")] "t")]

/-- A root whose top level has an `index.html` (for SPA fallback). -/
def root9 : List (String × FsNode) :=
  [("index.html", FsNode.file "SPA" 3 "t")]

/-- The spec's listing-ordering example: entries `b.txt`, `A` (a
subdirectory) and `a.txt`, enumerated in that order. -/
def entriesEx : List (String × FsNode) :=
  [("b.txt", FsNode.file "" 1 "t1"),
   ("A", FsNode.dir [] "t2"),
   ("a.txt", FsNode.file "" 2 "t3")]

/-! ### Helper lemmas -/

theorem mem_insertHeader_self (k v : String) (hs : List (String × String)) :
    (k, v) ∈ insertHeader k v hs := by
  unfold insertHeader
  split
  · rename_i hany
    obtain ⟨p, hp, hpk⟩ := List.any_eq_true.mp hany
    refine List.mem_map.mpr ⟨p, hp, ?_⟩
    rw [if_pos hpk]
  · exact List.mem_append_right _ (List.mem_singleton.mpr rfl)

theorem mem_insertHeader_of_ne (k v k2 v2 : String)
    (hs : List (String × String)) (hne : k ≠ k2) (hmem : (k, v) ∈ hs) :
    (k, v) ∈ insertHeader k2 v2 hs := by
  unfold insertHeader
  split
  · refine List.mem_map.mpr ⟨(k, v), hmem, ?_⟩
    rw [if_neg]
    simpa using hne
  · exact List.mem_append_left _ hmem

theorem mem_shapeHeaders_of_ne (cfg : Config) (k v : String)
    (hs : List (String × String)) (h1 : k ≠ "cache-control")
    (h2 : k ≠ "access-control-allow-origin") (hmem : (k, v) ∈ hs) :
    (k, v) ∈ shapeHeaders cfg hs := by
  simp only [shapeHeaders]
  have step1 :
      (k, v) ∈ (if cfg.nocache then insertHeader "cache-control" "no-store" hs else hs) := by
    split
    · exact mem_insertHeader_of_ne _ _ _ _ _ h1 hmem
    · exact hmem
  split
  · exact mem_insertHeader_of_ne _ _ _ _ _ h2 step1
  · exact step1

theorem nocache_mem_shapeHeaders (cfg : Config) (hs : List (String × String))
    (h : cfg.nocache = true) :
    ("cache-control", "no-store") ∈ shapeHeaders cfg hs := by
  simp only [shapeHeaders]
  by_cases hc : cfg.enableCors = true
  · rw [if_pos hc, if_pos h]
    exact mem_insertHeader_of_ne _ _ _ _ _ (by decide) (mem_insertHeader_self _ _ _)
  · rw [if_neg hc, if_pos h]
    exact mem_insertHeader_self _ _ _

theorem cors_mem_shapeHeaders (cfg : Config) (hs : List (String × String))
    (h : cfg.enableCors = true) :
    ("access-control-allow-origin", cfg.corsValue.getD "*") ∈ shapeHeaders cfg hs := by
  simp only [shapeHeaders]
  rw [if_pos h]
  exact mem_insertHeader_self _ _ _

theorem pipeline_of_pass (collab : Collab) (cfg : Config)
    (roots : List (String × FsNode)) (req : Request)
    (h : authLayer collab cfg.auth req.credentials = none) :
    pipeline collab cfg roots req =
      wrapFilter cfg req.path (innerResponse collab cfg roots req.path) := by
  unfold pipeline
  rw [h]

theorem pipeline_of_deny (collab : Collab) (cfg : Config)
    (roots : List (String × FsNode)) (req : Request) (resp : Response)
    (h : authLayer collab cfg.auth req.credentials = some resp) :
    pipeline collab cfg roots req = resp := by
  unfold pipeline
  rw [h]

theorem wrapFilter_body_of_clear (cfg : Config) (raw : String) (r : Response)
    (h : isdotfile raw = false) : (wrapFilter cfg raw r).body = r.body := by
  simp [wrapFilter, h]

/-- Every segment list accepted by `parse_path` is free of `..` and empty
segments: the `..` pop can only shorten the accepted prefix, never escape. -/
theorem parseSegmentsAux_clean :
    ∀ (segs acc out : List String),
      (∀ x ∈ acc, x ≠ ".." ∧ x ≠ "") → parseSegmentsAux segs acc = some out →
      ∀ x ∈ out, x ≠ ".." ∧ x ≠ "" := by
  intro segs
  induction segs with
  | nil =>
    intro acc out hacc h
    simp only [parseSegmentsAux, Option.some.injEq] at h
    exact h ▸ hacc
  | cons seg rest ih =>
    intro acc out hacc h
    simp only [parseSegmentsAux] at h
    by_cases h1 : seg == ".."
    · rw [if_pos h1] at h
      refine ih _ _ (fun x hx => hacc x (List.dropLast_sublist acc |>.subset hx)) h
    · rw [if_neg h1] at h
      cases h2 : badStartSeg seg with
      | true => rw [h2] at h; simp at h
      | false =>
        rw [h2] at h
        simp only [Bool.false_eq_true, if_false] at h
        cases h3 : badEndSeg seg with
        | true => rw [h3] at h; simp at h
        | false =>
          rw [h3] at h
          simp only [Bool.false_eq_true, if_false] at h
          by_cases h4 : seg == ""
          · rw [if_pos h4] at h
            exact ih _ _ hacc h
          · rw [if_neg h4] at h
            refine ih _ _ ?_ h
            intro x hx
            rcases List.mem_append.mp hx with hx2 | hx2
            · exact hacc x hx2
            · rw [List.mem_singleton.mp hx2]
              exact ⟨by simpa using h1, by simpa using h4⟩

/-- Names of the collected `File` rows all come from the enumerated entry
names. -/
theorem mem_collectRows_files_name (showDot : Bool) (collab : Collab) :
    ∀ (entries : List (String × FsNode)) (f : File),
      f ∈ (collectRows showDot collab entries).2 → f.name ∈ entries.map Prod.fst := by
  intro entries
  induction entries with
  | nil => intro f hf; simp [collectRows] at hf
  | cons e rest ih =>
    intro f hf
    obtain ⟨name, node⟩ := e
    simp only [collectRows] at hf
    split at hf
    · exact List.mem_cons_of_mem _ (ih f hf)
    · cases node with
      | dir es m => exact List.mem_cons_of_mem _ (ih f hf)
      | file c sz m =>
        rcases List.mem_cons.mp hf with hf2 | hf2
        · rw [hf2]; exact List.mem_cons_self _ _
        · exact List.mem_cons_of_mem _ (ih f hf2)

/-- Distinct entry names (the filesystem invariant for one directory) give
pairwise-distinct names among the collected file rows. -/
theorem pairwise_collectRows_files_name (showDot : Bool) (collab : Collab) :
    ∀ (entries : List (String × FsNode)),
      (entries.map Prod.fst).Pairwise (· ≠ ·) →
      ((collectRows showDot collab entries).2).Pairwise
        (fun a b : File => a.name ≠ b.name) := by
  intro entries
  induction entries with
  | nil => intro _; simp [collectRows]
  | cons e rest ih =>
    intro hp
    obtain ⟨name, node⟩ := e
    rw [List.map_cons, List.pairwise_cons] at hp
    simp only [collectRows]
    split
    · exact ih hp.2
    · cases node with
      | dir es m => exact ih hp.2
      | file c sz m =>
        refine List.pairwise_cons.mpr ⟨?_, ih hp.2⟩
        intro g hg
        exact hp.1 g.name (mem_collectRows_files_name showDot collab rest g hg)

/-- Under the full derived order, rows with distinct names compare by name
alone — hence they are also ordered by the `(name, modified)` relation. -/
theorem fileLe_of_ne (a b : File) (h : fileLe a b) (hne : a.name ≠ b.name) :
    nameModifiedLe a b := by
  rcases h with h | ⟨e, _⟩
  · exact Or.inl h
  · exact absurd e hne

/-! ### Claim theorems -/

/-- C1.  What the code actually transmits for a dotfile request with
`showDotfiles = false`: requesting `/.secret` against a root that contains
the file `.secret` yields a response whose status is the *inner* service's
200 (not 403), whose headers are the inner headers (not stripped), and
whose body alone has been emptied — the `map_body` closure can only
replace the body, and `Response::new(StatusCode::FORBIDDEN).into_body()`
throws the 403 status away.  This contradicts the claimed
403/empty-header-set/closed-connection response. -/
theorem dotfile_gate_transmits_inner_status :
    cfg1.dotfiles = false ∧
    (pipeline collab0 cfg1 root1 ⟨"/.secret", none⟩).status = 200 ∧
    (pipeline collab0 cfg1 root1 ⟨"/.secret", none⟩).body = "" ∧
    (pipeline collab0 cfg1 root1 ⟨"/.secret", none⟩).headers =
      [("content-type", "application/octet-stream")] := by
  decide

/-- C2 counterexample.  The request path `/..` contains a `..` segment that
would escape the root (per the spec's reading), yet with dotfiles shown and
no auth the response status is 200 — the root directory listing — because
`parse_path` resolves `..` by popping (a no-op at the root) instead of
rejecting with 404. -/
theorem dotdot_escape_request_not_404 :
    specWouldEscape "/.." = true ∧
    (pipeline collab0 cfg2 root2 ⟨"/..", none⟩).status = 200 ∧
    (pipeline collab0 cfg2 root2 ⟨"/..", none⟩).body = "PAGE" := by
  decide

/-- C2 amended.  `..` segments never escape the root: every segment list
accepted by `parse_path` is free of `..` (each `..` dropped the previously
accepted segment, clamped at the root), so the request is served relative
to the root.  And the auth layer runs before the `Files` service, so when
authentication is enabled and the request carries invalid or no
credentials the response is the 401 challenge, not 404 — for every path,
traversal or not. -/
theorem dotdot_clamped_and_auth_401 :
    (∀ segs out : List String,
       parseSegments segs = some out → ∀ x ∈ out, x ≠ ".." ∧ x ≠ "") ∧
    (∀ (collab : Collab) (cfg : Config) (a : AuthConfig)
       (roots : List (String × FsNode)) (raw u : String) (pw : Option String),
       cfg.auth = some a → validator collab a u pw = false →
       pipeline collab cfg roots ⟨raw, some (u, pw)⟩ =
         challengeResponse (some "Incorrect username or password")) ∧
    (∀ (collab : Collab) (cfg : Config) (a : AuthConfig)
       (roots : List (String × FsNode)) (raw : String),
       cfg.auth = some a →
       pipeline collab cfg roots ⟨raw, none⟩ = challengeResponse none) := by
  refine ⟨?_, ?_, ?_⟩
  · intro segs out h
    exact parseSegmentsAux_clean segs [] out (by intro x hx; cases hx) h
  · intro collab cfg a roots raw u pw hauth hval
    refine pipeline_of_deny _ _ _ _ _ ?_
    simp [authLayer, hauth, hval]
  · intro collab cfg a roots raw hauth
    refine pipeline_of_deny _ _ _ _ _ ?_
    simp [authLayer, hauth]

/-- C2 witness: a traversal request with wrong credentials against an
auth-enabled server is answered 401, with the parsed segments of the same
path being clean of `..`. -/
theorem dotdot_clamped_and_auth_401_witness :
    pipeline collab0 cfgAuth root2 ⟨"/../a.txt", some ("admin", some "wrong")⟩ =
      challengeResponse (some "Incorrect username or password") :=
  dotdot_clamped_and_auth_401.2.1 collab0 cfgAuth ⟨"admin", "HASHED"⟩ root2
    "/../a.txt" "admin" (some "wrong") rfl (by decide)

/-- C3 counterexample.  A context-serialization failure while building a
directory listing is *not* degraded to a 200 response with the fixed
literal body: `render_index` returns the error, and the service surfaces
it as a 500 response. -/
theorem serialize_failure_propagates :
    (pipeline collabSerFail cfg1 root3 ⟨"/d", none⟩).status = 500 ∧
    (pipeline collabSerFail cfg1 root3 ⟨"/d", none⟩).body = "ser failed" := by
  decide

/-- C3 amended.  The two failure modes of listing generation are handled
differently: a template rendering failure is degraded locally to an HTTP
200 response with the literal body `TEMPLATE RENDER ERROR`, but a
`tera::Context::from_serialize` failure is returned as an error from
`render_index` (propagating as a failed request / 500), not as a 200. -/
theorem render_fault_split (collab : Collab) (cfg : Config)
    (es : List (String × FsNode)) (raw : String)
    (hidx : findChild es "index.html" = none)
    (hnoidx : cfg.noindex = false) :
    (∀ e : String,
       collab.serializeCtx (buildContext cfg.dotfiles collab raw es) =
         Except.error e →
       render_index cfg collab es raw = Except.error e) ∧
    (∀ e : String,
       collab.serializeCtx (buildContext cfg.dotfiles collab raw es) =
         Except.ok () →
       collab.renderTemplate (buildContext cfg.dotfiles collab raw es) =
         Except.error e →
       render_index cfg collab es raw =
         Except.ok ⟨200, [("content-type", "text/html; charset=utf-8")],
           "TEMPLATE RENDER ERROR"⟩) := by
  constructor
  · intro e hser
    simp [render_index, hidx, hnoidx, hser]
  · intro e hser hren
    simp [render_index, hidx, hnoidx, hser, hren]

/-- C3 witness: under the failing serializer, `render_index` on a concrete
directory returns the error instead of a degraded 200. -/
theorem render_fault_split_witness :
    render_index cfg1 collabSerFail [("x.txt", FsNode.file "X" 1 "t")] "/d" =
      Except.error "ser failed" :=
  (render_fault_split collabSerFail cfg1 [("x.txt", FsNode.file "X" 1 "t")] "/d"
    rfl rfl).1 "ser failed" rfl

/-- C4 counterexample.  The dotfile determination is *not* made over the
percent-decoded segments: `/%2Esecret` decodes to the dotfile segment
`.secret` (so the spec-side determination flags it), but the code's check
over the raw path does not flag it — and with `showDotfiles = false` the
secret dotfile's full content is served. -/
theorem encoded_dot_bypasses_gate :
    specIsDotfile "/%2Esecret" = true ∧
    isdotfile "/%2Esecret" = false ∧
    cfg1.dotfiles = false ∧
    (pipeline collab0 cfg1 root1 ⟨"/%2Esecret", none⟩).body = "TOP SECRET" := by
  decide

/-- C4 amended.  The dotfile determination is made over the *raw,
percent-encoded* path components: for requests that pass the auth layer,
the transmitted body is emptied exactly when some raw component starts
with `.` and dotfiles are hidden; otherwise the inner response body is
transmitted unchanged (so an encoded dot escapes the gate). -/
theorem dotfile_detection_raw_segments (collab : Collab) (cfg : Config)
    (roots : List (String × FsNode)) (raw : String)
    (creds : Option (String × Option String))
    (hpass : authLayer collab cfg.auth creds = none) :
    (isdotfile raw = true ∧ cfg.dotfiles = false →
       (pipeline collab cfg roots ⟨raw, creds⟩).body = "") ∧
    (isdotfile raw = false →
       (pipeline collab cfg roots ⟨raw, creds⟩).body =
         (innerResponse collab cfg roots raw).body) ∧
    (cfg.dotfiles = true →
       (pipeline collab cfg roots ⟨raw, creds⟩).body =
         (innerResponse collab cfg roots raw).body) := by
  rw [pipeline_of_pass collab cfg roots ⟨raw, creds⟩ hpass]
  refine ⟨?_, ?_, ?_⟩
  · rintro ⟨h1, h2⟩
    simp [wrapFilter, h1, h2]
  · intro h1
    simp [wrapFilter, h1]
  · intro h1
    simp [wrapFilter, h1]

/-- C4 witness: a raw dotfile segment in the middle of the path empties
the transmitted body when dotfiles are hidden. -/
theorem dotfile_detection_raw_segments_witness :
    (pipeline collab0 cfg1 root1 ⟨"/a/.b", none⟩).body = "" :=
  (dotfile_detection_raw_segments collab0 cfg1 root1 "/a/.b" none rfl).1
    ⟨by decide, rfl⟩

/-- C5 counterexample.  A request carrying no `Authorization` header is
denied with a challenge that has *no* realm (the extractor's default bare
`Basic`), not the fixed realm string the claim asserts for every denied
request. -/
theorem missing_header_challenge_has_no_realm :
    pipeline collab0 cfgAuth root1 ⟨"/x", none⟩ =
      ⟨401, [("www-authenticate", "Basic")], ""⟩ ∧
    basicChallenge none ≠ basicChallenge (some "Incorrect username or password") := by
  decide

/-- C5 amended.  With authentication enabled, a request that supplies
Basic credentials is allowed if and only if the username matches
byte-for-byte and the (deterministic, salt-free) hash of the supplied
password equals the stored hash; such a request, when denied, receives the
401 challenge with the fixed realm `Incorrect username or password`.  A
request without a parseable Basic `Authorization` header is denied with
the default bare `Basic` challenge (no realm).  Either denial is decided
before the file service runs: the response is the same for every
filesystem.  Without configured auth every request is allowed. -/
theorem auth_gate_behavior :
    (∀ (collab : Collab) (a : AuthConfig) (u : String) (pw : Option String),
       validator collab a u pw = true ↔
         u = a.username ∧ collab.hashString (pw.getD "") = a.passwordHash) ∧
    (∀ (collab : Collab) (a : AuthConfig) (u : String) (pw : Option String),
       authLayer collab (some a) (some (u, pw)) = none ↔
         validator collab a u pw = true) ∧
    (∀ (collab : Collab) (a : AuthConfig) (u : String) (pw : Option String),
       validator collab a u pw = false →
       authLayer collab (some a) (some (u, pw)) =
         some (challengeResponse (some "Incorrect username or password"))) ∧
    (∀ (collab : Collab) (a : AuthConfig),
       authLayer collab (some a) none = some (challengeResponse none)) ∧
    (∀ (collab : Collab) (cfg : Config)
       (roots1 roots2 : List (String × FsNode)) (req : Request) (resp : Response),
       authLayer collab cfg.auth req.credentials = some resp →
       pipeline collab cfg roots1 req = resp ∧ pipeline collab cfg roots2 req = resp) ∧
    (∀ (collab : Collab) (creds : Option (String × Option String)),
       authLayer collab none creds = none) := by
  refine ⟨?_, ?_, ?_, ?_, ?_, ?_⟩
  · intro collab a u pw
    simp [validator, Bool.and_eq_true, beq_iff_eq]
  · intro collab a u pw
    cases hv : validator collab a u pw <;> simp [authLayer, hv]
  · intro collab a u pw hv
    simp [authLayer, hv]
  · intro collab a
    rfl
  · intro collab cfg roots1 roots2 req resp h
    exact ⟨pipeline_of_deny _ _ _ _ _ h, pipeline_of_deny _ _ _ _ _ h⟩
  · intro collab creds
    rfl

/-- C5 witness: wrong password against the configured `admin` account is
denied with the fixed-realm challenge. -/
theorem auth_gate_behavior_witness :
    authLayer collab0 (some ⟨"admin", "HASHED"⟩) (some ("admin", some "wrong")) =
      some (challengeResponse (some "Incorrect username or password")) :=
  auth_gate_behavior.2.2.1 collab0 ⟨"admin", "HASHED"⟩ "admin" (some "wrong")
    (by decide)

/-- C7 counterexample.  With `--nocache` and auth enabled, the 401 denial
response is produced above the `wrap_fn` filter and never passes through
header shaping: it does not carry `Cache-Control: no-store`, so not
*every* response the server emits carries the configured headers. -/
theorem auth_denied_response_lacks_no_store :
    cfgAuthNc.nocache = true ∧
    (pipeline collab0 cfgAuthNc root1 ⟨"/x", none⟩).headers =
      [("www-authenticate", "Basic")] ∧
    ("cache-control", "no-store") ∉
      (pipeline collab0 cfgAuthNc root1 ⟨"/x", none⟩).headers := by
  decide

/-- C7 amended.  Every response produced by the inner file-serving service
— file bodies, listings, SPA fallbacks, 404s and dotfile-gated responses
alike — is shaped on the way out: with `noCache` it carries
`Cache-Control: no-store`, and with CORS enabled it carries
`Access-Control-Allow-Origin` with the configured origin (default `*`).
Responses short-circuited by the authentication middleware (401
challenges) bypass the filter and are not shaped. -/
theorem header_shaping_inner_responses (collab : Collab) (cfg : Config)
    (roots : List (String × FsNode)) (req : Request)
    (hpass : authLayer collab cfg.auth req.credentials = none) :
    (cfg.nocache = true →
       ("cache-control", "no-store") ∈ (pipeline collab cfg roots req).headers) ∧
    (cfg.enableCors = true →
       ("access-control-allow-origin", cfg.corsValue.getD "*") ∈
         (pipeline collab cfg roots req).headers) := by
  rw [pipeline_of_pass collab cfg roots req hpass]
  exact ⟨fun h => nocache_mem_shapeHeaders cfg _ h,
         fun h => cors_mem_shapeHeaders cfg _ h⟩

/-- C7 witness: with `--nocache --cors https://example.com` and no auth, a
plain file response carries both headers. -/
theorem header_shaping_inner_responses_witness :
    ("cache-control", "no-store") ∈
      (pipeline collab0 cfgNcCors root2 ⟨"/a.txt", none⟩).headers ∧
    ("access-control-allow-origin", "https://example.com") ∈
      (pipeline collab0 cfgNcCors root2 ⟨"/a.txt", none⟩).headers :=
  ⟨(header_shaping_inner_responses collab0 cfgNcCors root2 ⟨"/a.txt", none⟩ rfl).1 rfl,
   (header_shaping_inner_responses collab0 cfgNcCors root2 ⟨"/a.txt", none⟩ rfl).2 rfl⟩

/-- C6.  In every rendered listing of a directory (whose entry names are
pairwise distinct, as the filesystem guarantees), the directory rows are
sorted ascending by `(name, modified)` — their derived `Ord` — and the
file rows, sorted by their full derived `Ord`
`(name, size, filetype, modified)`, are in particular sorted ascending by
`(name, modified)` with name primary; the rendered rows are the directory
group followed by the file group. -/
theorem listing_sorted_and_grouped (showDot : Bool) (collab : Collab)
    (raw : String) (entries : List (String × FsNode))
    (hnames : (entries.map Prod.fst).Pairwise (· ≠ ·)) :
    (buildContext showDot collab raw entries).dirs.Sorted dirLe ∧
    (buildContext showDot collab raw entries).files.Sorted nameModifiedLe ∧
    renderedRows (buildContext showDot collab raw entries) =
      (buildContext showDot collab raw entries).dirs.map Sum.inl ++
        (buildContext showDot collab raw entries).files.map Sum.inr := by
  refine ⟨List.sorted_insertionSort dirLe _, ?_, rfl⟩
  have hs : List.Sorted fileLe
      (List.insertionSort fileLe (collectRows showDot collab entries).2) :=
    List.sorted_insertionSort fileLe _
  have hperm := List.perm_insertionSort fileLe (collectRows showDot collab entries).2
  have hne := pairwise_collectRows_files_name showDot collab entries hnames
  have hne2 : (List.insertionSort fileLe (collectRows showDot collab entries).2).Pairwise
      (fun a b : File => a.name ≠ b.name) :=
    hne.perm hperm.symm (fun {a b} h => h.symm)
  show List.Pairwise nameModifiedLe
    (List.insertionSort fileLe (collectRows showDot collab entries).2)
  exact (hs.and hne2).imp fun h => fileLe_of_ne _ _ h.1 h.2

/-- C6 witness: the spec's example — entries `b.txt`, subdirectory `A`,
`a.txt` — is rendered with the directory group first and the files sorted
`a.txt`, `b.txt`. -/
theorem listing_sorted_and_grouped_witness :
    (buildContext true collab0 "/" entriesEx).dirs.Sorted dirLe ∧
    (buildContext true collab0 "/" entriesEx).files.Sorted nameModifiedLe ∧
    renderedRows (buildContext true collab0 "/" entriesEx) =
      (buildContext true collab0 "/" entriesEx).dirs.map Sum.inl ++
        (buildContext true collab0 "/" entriesEx).files.map Sum.inr :=
  listing_sorted_and_grouped true collab0 "/" entriesEx (by decide)

/-- C8.  A request that passes the auth layer and the dotfile gate and
resolves to a directory containing an `index.html` file is answered 200
with exactly that file's content as body and content type
`text/html; charset=utf-8`; moreover `render_index` returns this response
for *any* directory entries and collaborators with that `index.html`
child — the listing enumeration, serializer and template are never
consulted. -/
theorem directory_index_html_served (collab : Collab) (cfg : Config)
    (roots : List (String × FsNode)) (raw : String) (segs : List String)
    (es : List (String × FsNode)) (m c : String) (sz : Nat) (mm : String)
    (hauth : cfg.auth = none)
    (hdot : isdotfile raw = false)
    (hparse : parseSegments ((splitSlash raw).map percentDecode) = some segs)
    (hlook : (FsNode.dir roots "").lookup segs = some (FsNode.dir es m))
    (hidx : findChild es "index.html" = some (FsNode.file c sz mm)) :
    (pipeline collab cfg roots ⟨raw, none⟩).status = 200 ∧
    (pipeline collab cfg roots ⟨raw, none⟩).body = c ∧
    ("content-type", "text/html; charset=utf-8") ∈
      (pipeline collab cfg roots ⟨raw, none⟩).headers ∧
    (∀ (collab2 : Collab) (es2 : List (String × FsNode)) (raw2 : String),
       findChild es2 "index.html" = some (FsNode.file c sz mm) →
       render_index cfg collab2 es2 raw2 =
         Except.ok ⟨200, [("content-type", "text/html; charset=utf-8")], c⟩) := by
  have hpipe : pipeline collab cfg roots ⟨raw, none⟩ =
      wrapFilter cfg raw (innerResponse collab cfg roots raw) :=
    pipeline_of_pass _ _ _ _ (by simp [authLayer, hauth])
  have hinner : innerResponse collab cfg roots raw =
      ⟨200, [("content-type", "text/html; charset=utf-8")], c⟩ := by
    simp only [innerResponse, filesService, hparse, hlook, render_index, hidx]
  refine ⟨?_, ?_, ?_, ?_⟩
  · rw [hpipe, hinner]
    rfl
  · rw [hpipe, hinner, wrapFilter_body_of_clear _ _ _ hdot]
  · rw [hpipe, hinner]
    exact mem_shapeHeaders_of_ne cfg _ _ _ (by decide) (by decide)
      (List.mem_singleton.mpr rfl)
  · intro collab2 es2 raw2 hidx2
    simp only [render_index, hidx2]

/-- C8 witness: `/docs` with `docs/index.html` present is served that
file with status 200. -/
theorem directory_index_html_served_witness :
    (pipeline collab0 cfg1 root8 ⟨"/docs", none⟩).status = 200 ∧
    (pipeline collab0 cfg1 root8 ⟨"/docs", none⟩).body = "<html>index</html>" := by
  have h := directory_index_html_served collab0 cfg1 root8 "/docs" ["docs"]
    [("index.html", FsNode.file "<html>index</html>" 18 "t"),
     ("other.txt", FsNode.file "x" 1 "t")] "t" "<html>index</html>" 18 "t"
    rfl (by decide) (by decide) rfl rfl
  exact ⟨h.1, h.2.1⟩

/-- C9.  A request that passes the auth layer and the dotfile gate and
resolves to nothing is handled by the `default_handler`: with SPA mode on
and a regular `index.html` at the root, the response is 200 with that
file's content; with SPA mode off, or no root `index.html` (or an
`index.html` that is not a regular file), the response is an empty 404. -/
theorem missing_path_spa_fallback (collab : Collab) (cfg : Config)
    (roots : List (String × FsNode)) (raw : String) (segs : List String)
    (hauth : cfg.auth = none)
    (hdot : isdotfile raw = false)
    (hparse : parseSegments ((splitSlash raw).map percentDecode) = some segs)
    (hlook : (FsNode.dir roots "").lookup segs = none) :
    (∀ (c : String) (sz : Nat) (mm : String), cfg.spa = true →
       findChild roots "index.html" = some (FsNode.file c sz mm) →
       (pipeline collab cfg roots ⟨raw, none⟩).status = 200 ∧
       (pipeline collab cfg roots ⟨raw, none⟩).body = c) ∧
    (cfg.spa = false →
       (pipeline collab cfg roots ⟨raw, none⟩).status = 404 ∧
       (pipeline collab cfg roots ⟨raw, none⟩).body = "") ∧
    (findChild roots "index.html" = none →
       (pipeline collab cfg roots ⟨raw, none⟩).status = 404 ∧
       (pipeline collab cfg roots ⟨raw, none⟩).body = "") := by
  have hpipe : pipeline collab cfg roots ⟨raw, none⟩ =
      wrapFilter cfg raw (innerResponse collab cfg roots raw) :=
    pipeline_of_pass _ _ _ _ (by simp [authLayer, hauth])
  have hfs : filesService cfg collab roots raw = defaultHandler cfg collab roots := by
    simp only [filesService, hparse, hlook]
  have finish : ∀ resp : Response,
      defaultHandler cfg collab roots = Except.ok resp →
      (pipeline collab cfg roots ⟨raw, none⟩).status = resp.status ∧
      (pipeline collab cfg roots ⟨raw, none⟩).body = resp.body := by
    intro resp hdef
    have hres : innerResponse collab cfg roots raw = resp := by
      simp only [innerResponse, hfs, hdef]
    constructor
    · rw [hpipe, hres]
      rfl
    · rw [hpipe, hres, wrapFilter_body_of_clear _ _ _ hdot]
  refine ⟨?_, ?_, ?_⟩
  · intro c sz mm hspa hfc
    exact finish ⟨200, [("content-type", collab.guessMime "index.html")], c⟩
      (by simp [defaultHandler, hfc, hspa])
  · intro hspa
    cases hfc : findChild roots "index.html" with
    | none => exact finish ⟨404, [], ""⟩ (by simp [defaultHandler, hfc])
    | some node =>
      cases node with
      | file c sz mm => exact finish ⟨404, [], ""⟩ (by simp [defaultHandler, hfc, hspa])
      | dir es m => exact finish ⟨404, [], ""⟩ (by simp [defaultHandler, hfc])
  · intro hfc
    exact finish ⟨404, [], ""⟩ (by simp [defaultHandler, hfc])

/-- C9 witness: `/no/such` with SPA mode and a root `index.html` returns
200 with the root `index.html` body. -/
theorem missing_path_spa_fallback_witness :
    (pipeline collab0 cfgSpa root9 ⟨"/no/such", none⟩).status = 200 ∧
    (pipeline collab0 cfgSpa root9 ⟨"/no/such", none⟩).body = "SPA" := by
  have h := missing_path_spa_fallback collab0 cfgSpa root9 "/no/such" ["no", "such"]
    rfl (by decide) (by decide) rfl
  exact h.1 "SPA" 3 "t" rfl rfl

/-- C10.  A Basic `Authorization` header that carries a username but no
password is validated exactly as if the password were the empty string
(`auth.password().unwrap_or("")`): the request is allowed if and only if
the username matches the configured one and the stored hash equals the
hash of the empty string. -/
theorem missing_password_empty_string :
    (∀ (collab : Collab) (a : AuthConfig) (u : String),
       validator collab a u none = validator collab a u (some "")) ∧
    (∀ (collab : Collab) (a : AuthConfig) (u : String),
       validator collab a u none = true ↔
         u = a.username ∧ collab.hashString "" = a.passwordHash) := by
  constructor
  · intro collab a u
    rfl
  · intro collab a u
    simp [validator, Bool.and_eq_true, beq_iff_eq]

end Web
